import Mathlib

/-!
Shallow embedding of the widget registry and synchronization core of
`src/ESP32Dashboard.{h,cpp}`: the card/control data model, the bounded
chart time-series store, the control-action dispatch shared by the HTTP
handler (`handleApiControl`) and the WebSocket handler (`webSocketEvent`,
`WStype_TEXT` arm), the snapshot builders (`handleApiData`,
`sendDataToClients`), the device-side setters (`setSwitchState`,
`setSliderValue`) and the periodic tick (`loop`).

Modelling conventions:
- C++ `String` becomes `String`; `bool` becomes `Bool`; `int` becomes `Int`
  (no arithmetic is performed on control values, so no wraparound is
  modelled there); `unsigned long` millisecond clocks become `Nat` with
  explicit 32-bit wraparound (`usub32`) where the code subtracts them.
- Chart sample values are `float` in the source; no claim depends on
  floating-point arithmetic (samples are only stored, evicted and
  serialized), so the sample payload is carried as `Int`, produced from
  the card's string producer by `toFloatVal` (an integer stand-in for
  `String::toFloat`).
- `std::function` callback fields are modelled by presence flags
  (`hasSwitchCallback`, ...) plus an explicit event trace (`CallbackEv`):
  the code only checks the callback for null and invokes it, so the trace
  records exactly the invocations with their arguments.  Card value/status
  producers, whose return value feeds snapshots, are kept as optional Lean
  functions `Option (Unit → String)`.
- Network sends are reified as an `Output` trace: `broadcast` models
  `webSocket->broadcastTXT` of a compact snapshot, `httpReply` models
  `server->send`, `customMessage` models invoking the public
  `onCustomMessage` hook.
- Inbound JSON bodies are modelled post-parse as `JsonDoc` (optional
  `id` / `action` / `value` fields).  A `deserializeJson` failure leaves
  the ArduinoJson document empty, i.e. it coincides with the all-`none`
  document; a missing key read as `String` serializes to `"null"` (`jStr`),
  read as `int` it converts to `0` (`jInt`).
-/

set_option linter.unusedVariables false

namespace ESP32Dashboard

/-- Card kinds, in declaration order of the `CardType` enum in
`ESP32Dashboard.h` (so the implicit C++ enumerator values are the
constructor indices 0..6). -/
inductive CardType where
  | CARD_TEMPERATURE
  | CARD_HUMIDITY
  | CARD_MOTOR_RPM
  | CARD_CUSTOM
  | CARD_STATUS
  | CARD_PERCENTAGE
  | CARD_CHART
deriving DecidableEq, Repr

/-- Control kinds, in declaration order of the `ControlType` enum. -/
inductive ControlType where
  | CONTROL_SWITCH
  | CONTROL_BUTTON
  | CONTROL_POWER_BUTTON
  | CONTROL_SLIDER
deriving DecidableEq, Repr

open CardType ControlType

/-- The numeric value a `CardType` serializes to: C++ gives the
enumerators consecutive values starting at 0, and `cardObj["type"] =
card.type` stores that integer. -/
def cardTypeCode : CardType → Nat
  | CARD_TEMPERATURE => 0
  | CARD_HUMIDITY => 1
  | CARD_MOTOR_RPM => 2
  | CARD_CUSTOM => 3
  | CARD_STATUS => 4
  | CARD_PERCENTAGE => 5
  | CARD_CHART => 6

/-- The numeric value a `ControlType` serializes to. -/
def controlTypeCode : ControlType → Nat
  | CONTROL_SWITCH => 0
  | CONTROL_BUTTON => 1
  | CONTROL_POWER_BUTTON => 2
  | CONTROL_SLIDER => 3

/-- `struct ChartDataPoint { unsigned long timestamp; float value; }`.
The value payload is opaque to every property proved here; it is carried
as `Int` (see the header comment). -/
structure ChartDataPoint where
  timestamp : Nat
  value : Int
deriving DecidableEq, Repr

/-- `struct DashboardCard` (ESP32Dashboard.h lines 36-49). -/
structure DashboardCard where
  id : String
  title : String
  description : String
  value : String
  status : String
  color : String
  icon : String
  type : CardType
  valueCallback : Option (Unit → String)
  statusCallback : Option (Unit → String)
  chartData : List ChartDataPoint
  maxDataPoints : Int

/-- `struct DashboardControl` (ESP32Dashboard.h lines 52-65), with the
three `std::function` fields replaced by presence flags. -/
structure DashboardControl where
  id : String
  title : String
  description : String
  type : ControlType
  state : Bool
  value : Int
  minValue : Int
  maxValue : Int
  color : String
  hasSwitchCallback : Bool
  hasSliderCallback : Bool
  hasButtonCallback : Bool
deriving DecidableEq, Repr

/-- Integer stand-in for `String::toFloat` applied to a card producer's
output when the tick appends a chart sample (no claim depends on the
numeric parse). -/
def toFloatVal (s : String) : Int := (s.toInt?).getD 0

/-- Conversion of a C++ `int` to `size_t` (32-bit unsigned on the ESP32),
as happens implicitly in `card.chartData.size() > card.maxDataPoints`. -/
def toUInt32 (i : Int) : Nat := (i % (2 ^ 32 : Int)).toNat

/-- The mutation `addChartDataPoint` performs on one card's sample list
(ESP32Dashboard.cpp lines 238-247): `push_back` the new point, then if
`size() > maxDataPoints` erase the front element. -/
def appendSample (maxPoints : Int) (data : List ChartDataPoint)
    (p : ChartDataPoint) : List ChartDataPoint :=
  if (data ++ [p]).length > toUInt32 maxPoints then (data ++ [p]).drop 1
  else data ++ [p]

/-- `ESP32Dashboard::addChartDataPoint` (lines 235-251): find the first
card whose id matches and whose type is `CARD_CHART`, append the point to
its store (evicting the oldest on overflow), and stop. -/
def addChartDataPoint (cards : List DashboardCard) (cardId : String)
    (p : ChartDataPoint) : List DashboardCard :=
  match cards with
  | [] => []
  | c :: rest =>
    if c.id == cardId && c.type == CARD_CHART then
      { c with chartData := appendSample c.maxDataPoints c.chartData p } :: rest
    else
      c :: addChartDataPoint rest cardId p

/-- A parsed inbound JSON body: the fields the handlers read.  A
`deserializeJson` failure yields the empty document, i.e. all fields
`none`. -/
structure JsonDoc where
  idField : Option String
  actionField : Option String
  valueField : Option Int
deriving DecidableEq, Repr

/-- Reading a JSON field as `String` in ArduinoJson: a missing key is the
null variant, which serializes to the string `"null"`. -/
def jStr : Option String → String
  | some s => s
  | none => "null"

/-- Reading a JSON field as `int`: the null variant converts to `0`. -/
def jInt : Option Int → Int
  | some v => v
  | none => 0

/-- A recorded invocation of a control-bound callback. -/
inductive CallbackEv where
  | onToggle (id : String) (newState : Bool)
  | onClick (id : String)
  | onSlide (id : String) (v : Int)
deriving DecidableEq, Repr

/-- One control's entry in the compact snapshot built by
`sendDataToClients` (lines 690-696): id, state, value. -/
structure CompactControlSnap where
  id : String
  state : Bool
  value : Int
deriving DecidableEq, Repr

/-- One card's entry in the compact snapshot (lines 672-688): id, value,
status, type code, and the full sample list for chart cards. -/
structure CompactCardSnap where
  id : String
  value : String
  status : String
  typeCode : Nat
  chartData : Option (List ChartDataPoint)
deriving DecidableEq, Repr

/-- The compact snapshot broadcast over the push channel. -/
structure CompactSnapshot where
  cards : List CompactCardSnap
  controls : List CompactControlSnap
  timestamp : Nat
  connectedClients : Nat
deriving DecidableEq, Repr

/-- One card's entry in the full snapshot built by `handleApiData`
(lines 526-546): adds title, description, color, icon. -/
structure FullCardSnap where
  id : String
  title : String
  description : String
  value : String
  status : String
  color : String
  icon : String
  typeCode : Nat
  chartData : Option (List ChartDataPoint)
deriving DecidableEq, Repr

/-- One control's entry in the full snapshot (lines 548-558). -/
structure FullControlSnap where
  id : String
  title : String
  description : String
  typeCode : Nat
  state : Bool
  value : Int
  color : String
deriving DecidableEq, Repr

/-- The full snapshot returned by `GET /api/data`. -/
structure FullSnapshot where
  cards : List FullCardSnap
  controls : List FullControlSnap
  timestamp : Nat
  connectedClients : Nat
deriving DecidableEq, Repr

/-- `card.valueCallback ? card.valueCallback() : card.value`. -/
def cardValueNow (c : DashboardCard) : String :=
  match c.valueCallback with
  | some f => f ()
  | none => c.value

/-- `card.statusCallback ? card.statusCallback() : card.status`. -/
def cardStatusNow (c : DashboardCard) : String :=
  match c.statusCallback with
  | some f => f ()
  | none => c.status

/-- The registry state the claims range over: the owned card and control
collections plus the tick bookkeeping of the `ESP32Dashboard` object
(fields that no modelled operation reads, such as the WiFi credentials and
the presentation strings, are omitted). -/
structure DashState where
  cards : List DashboardCard
  controls : List DashboardControl
  lastUpdate : Nat
  updateInterval : Nat
  onCustomMessageSet : Bool

/-- Observable externally-directed effects of a handler. -/
inductive Output where
  | broadcast (snap : CompactSnapshot)
  | httpReply (code : Nat) (body : String)
  | customMessage (payload : String) (clientNum : Nat)
deriving DecidableEq, Repr

/-- Number of push-channel broadcasts in an output trace. -/
def broadcastCount (outs : List Output) : Nat :=
  outs.countP fun o => match o with
    | Output.broadcast _ => true
    | _ => false

/-- One control's compact-snapshot entry (lines 690-696). -/
def controlSnapOf (c : DashboardControl) : CompactControlSnap :=
  { id := c.id, state := c.state, value := c.value }

/-- One card's compact-snapshot entry (lines 672-688). -/
def cardSnapOf (c : DashboardCard) : CompactCardSnap :=
  { id := c.id
    value := cardValueNow c
    status := cardStatusNow c
    typeCode := cardTypeCode c.type
    chartData := if c.type == CARD_CHART then some c.chartData else none }

/-- The compact snapshot `sendDataToClients` (lines 669-704) serializes
and broadcasts; `now` models `millis()` and `clients` models
`webSocket->connectedClients()`. -/
def compactSnapshot (s : DashState) (now clients : Nat) : CompactSnapshot where
  cards := s.cards.map cardSnapOf
  controls := s.controls.map controlSnapOf
  timestamp := now
  connectedClients := clients

/-- The full snapshot `handleApiData` (lines 523-566) serializes. -/
def fullSnapshot (s : DashState) (now clients : Nat) : FullSnapshot where
  cards := s.cards.map fun c =>
    { id := c.id
      title := c.title
      description := c.description
      value := cardValueNow c
      status := cardStatusNow c
      color := c.color
      icon := c.icon
      typeCode := cardTypeCode c.type
      chartData := if c.type == CARD_CHART then some c.chartData else none }
  controls := s.controls.map fun c =>
    { id := c.id
      title := c.title
      description := c.description
      typeCode := controlTypeCode c.type
      state := c.state
      value := c.value
      color := c.color }
  timestamp := now
  connectedClients := clients

/-- `GET /api/data`: builds the full snapshot and sends it with HTTP 200;
mutates nothing, so the state component of the result is the input
state. -/
def handleApiData (s : DashState) (now clients : Nat) :
    DashState × FullSnapshot :=
  (s, fullSnapshot s now clients)

/-- The action branch both handlers run on the first control whose id
matches (lines 578-594 and 636-655): `toggle` flips `state` on a
Switch/PowerButton and invokes the switch callback with the new state;
`click` invokes the button callback on a Button; `slide` stores the
requested value unconditionally on a Slider and invokes the slider
callback with it; anything else does nothing. -/
def applyAction (action : String) (v : Int) (c : DashboardControl) :
    DashboardControl × List CallbackEv :=
  if action == "toggle" && (c.type == CONTROL_SWITCH || c.type == CONTROL_POWER_BUTTON) then
    let ns := !c.state
    ({ c with state := ns },
      if c.hasSwitchCallback then [CallbackEv.onToggle c.id ns] else [])
  else if action == "click" && c.type == CONTROL_BUTTON then
    (c, if c.hasButtonCallback then [CallbackEv.onClick c.id] else [])
  else if action == "slide" && c.type == CONTROL_SLIDER then
    ({ c with value := v },
      if c.hasSliderCallback then [CallbackEv.onSlide c.id v] else [])
  else (c, [])

/-- The dispatch loop shared by both handlers: scan the control vector,
act on the first control whose id equals the target, `break`. -/
def dispatchControls (cid action : String) (v : Int) :
    List DashboardControl → List DashboardControl × List CallbackEv
  | [] => ([], [])
  | c :: rest =>
    if c.id == cid then
      ((applyAction action v c).1 :: rest, (applyAction action v c).2)
    else
      (c :: (dispatchControls cid action v rest).1,
       (dispatchControls cid action v rest).2)

/-- `POST /api/control` (`handleApiControl`, lines 568-605).  `body` is
`none` when the request carries no `plain` argument.  With a body the
handler parses it (failure leaving the empty document), dispatches on the
extracted id/action, replies HTTP 200 `{"status":"success"}`
unconditionally, and then broadcasts a compact snapshot; with no body it
replies HTTP 400 with an error object and does not broadcast. -/
def handleApiControl (s : DashState) (body : Option JsonDoc)
    (now clients : Nat) : DashState × List CallbackEv × List Output :=
  match body with
  | some doc =>
    let r := dispatchControls (jStr doc.idField) (jStr doc.actionField)
      (jInt doc.valueField) s.controls
    ({ s with controls := r.1 }, r.2,
      [Output.httpReply 200 "\x7b\"status\":\"success\"\x7d",
       Output.broadcast (compactSnapshot { s with controls := r.1 } now clients)])
  | none =>
    (s, [], [Output.httpReply 400 "\x7b\"error\":\"No data received\"\x7d"])

/-- The `WStype_TEXT` arm of `webSocketEvent` (lines 624-665).  `payload`
is the raw message text and `doc` its parse (empty document on parse
failure).  If the document contains both `id` and `action` the message is
dispatched and a compact snapshot broadcast — regardless of whether the
dispatch had any effect; otherwise nothing is sent.  The public
`onCustomMessage` hook, when set, receives every text message
afterwards. -/
def webSocketTextEvent (s : DashState) (payload : String) (doc : JsonDoc)
    (num now clients : Nat) : DashState × List CallbackEv × List Output :=
  let r :=
    if doc.idField.isSome && doc.actionField.isSome then
      let d := dispatchControls (jStr doc.idField) (jStr doc.actionField)
        (jInt doc.valueField) s.controls
      ({ s with controls := d.1 }, d.2,
        [Output.broadcast (compactSnapshot { s with controls := d.1 } now clients)])
    else (s, ([] : List CallbackEv), ([] : List Output))
  (r.1, r.2.1,
    r.2.2 ++ if s.onCustomMessageSet then [Output.customMessage payload num] else [])

/-- `ESP32Dashboard::setSwitchState` (lines 461-471): find the first
control whose id matches and whose kind is Switch or PowerButton, store
the given state, invoke the switch callback with it, `break`.  No output
is produced (in particular no broadcast: the source never calls
`sendDataToClients` here). -/
def setSwitchState (ctrls : List DashboardControl) (id : String)
    (st : Bool) : List DashboardControl × List CallbackEv :=
  match ctrls with
  | [] => ([], [])
  | c :: rest =>
    if c.id == id && (c.type == CONTROL_SWITCH || c.type == CONTROL_POWER_BUTTON) then
      ({ c with state := st } :: rest,
        if c.hasSwitchCallback then [CallbackEv.onToggle c.id st] else [])
    else
      (c :: (setSwitchState rest id st).1, (setSwitchState rest id st).2)

/-- `ESP32Dashboard::setSliderValue` (lines 482-492): find the first
Slider whose id matches, store the given value, invoke the slider
callback with it, `break`.  No output is produced. -/
def setSliderValue (ctrls : List DashboardControl) (id : String)
    (v : Int) : List DashboardControl × List CallbackEv :=
  match ctrls with
  | [] => ([], [])
  | c :: rest =>
    if c.id == id && c.type == CONTROL_SLIDER then
      ({ c with value := v } :: rest,
        if c.hasSliderCallback then [CallbackEv.onSlide c.id v] else [])
    else
      (c :: (setSliderValue rest id v).1, (setSliderValue rest id v).2)

/-- State-level wrappers for the setters, with the (empty) output trace
made explicit. -/
def setSwitchStateS (s : DashState) (id : String) (st : Bool) :
    DashState × List CallbackEv × List Output :=
  ({ s with controls := (setSwitchState s.controls id st).1 },
   (setSwitchState s.controls id st).2, [])

/-- See `setSwitchStateS`. -/
def setSliderValueS (s : DashState) (id : String) (v : Int) :
    DashState × List CallbackEv × List Output :=
  ({ s with controls := (setSliderValue s.controls id v).1 },
   (setSliderValue s.controls id v).2, [])

/-- 32-bit unsigned subtraction, as in `millis() - lastUpdate` on
`unsigned long`. -/
def usub32 (a b : Nat) : Nat := (a % 2 ^ 32 + 2 ^ 32 - b % 2 ^ 32) % 2 ^ 32

/-- The chart-refresh pass of `loop` (lines 222-228): iterate the card
vector, and for each chart card with a value producer call
`addChartDataPoint` with that card's id and the produced value.  The
iteration reads the original vector (appending samples alters neither
ids nor types nor producers), while the writes accumulate. -/
def tickCharts (cards : List DashboardCard) (now : Nat) :
    List DashboardCard :=
  cards.foldl
    (fun acc c =>
      match c.type, c.valueCallback with
      | CARD_CHART, some f =>
        addChartDataPoint acc c.id { timestamp := now, value := toFloatVal (f ()) }
      | _, _ => acc)
    cards

/-- One call of `ESP32Dashboard::loop` (lines 217-233), with the
transport pumps (`handleClient`, `webSocket->loop`) as external: when the
update interval has elapsed, append chart samples, broadcast a compact
snapshot, and reset `lastUpdate`; otherwise do nothing. -/
def loopTick (s : DashState) (now clients : Nat) :
    DashState × List Output :=
  if usub32 now s.lastUpdate ≥ s.updateInterval then
    let s' := { s with cards := tickCharts s.cards now }
    ({ s' with lastUpdate := now },
      [Output.broadcast (compactSnapshot s' now clients)])
  else (s, [])

/-- The HTTP status code of an output, when it is an HTTP reply. -/
def httpCode : Output → Option Nat
  | Output.httpReply code _ => some code
  | _ => none

/-! ### Concrete fixtures for witnesses and counterexamples -/

/-- A Switch control as `addSwitch` registers it (lines 394-406):
`state = false`, a bound switch callback, id `switch_` + index. -/
def exSwitch : DashboardControl :=
  { id := "switch_0", title := "Relay", description := "Main relay"
    type := CONTROL_SWITCH, state := false, value := 0, minValue := 0
    maxValue := 0, color := "blue", hasSwitchCallback := true
    hasSliderCallback := false, hasButtonCallback := false }

/-- A Button control as `addButton` registers it (lines 408-420). -/
def exButton : DashboardControl :=
  { id := "btn_1", title := "Reset", description := "Reset device"
    type := CONTROL_BUTTON, state := false, value := 0, minValue := 0
    maxValue := 0, color := "green", hasSwitchCallback := false
    hasSliderCallback := false, hasButtonCallback := true }

/-- The Slider of the spec's example: `{min:0, max:100, value:50}`
(registered by `addSlider`, lines 436-450, then slid to 50). -/
def exSlider : DashboardControl :=
  { id := "slider_2", title := "Speed", description := "Fan speed"
    type := CONTROL_SLIDER, state := false, value := 50, minValue := 0
    maxValue := 100, color := "blue", hasSwitchCallback := false
    hasSliderCallback := true, hasButtonCallback := false }

/-- A registry with one Switch, no cards, the default 1000 ms interval. -/
def exState : DashState :=
  { cards := [], controls := [exSwitch], lastUpdate := 0
    updateInterval := 1000, onCustomMessageSet := false }

/-- A registry with one Slider, no cards, the default 1000 ms interval. -/
def exStateSlider : DashState :=
  { cards := [], controls := [exSlider], lastUpdate := 0
    updateInterval := 1000, onCustomMessageSet := false }

/-- Three chart samples, used to exercise a capacity-2 store. -/
def exPoints : List ChartDataPoint :=
  [{ timestamp := 0, value := 10 }, { timestamp := 1, value := 11 },
   { timestamp := 2, value := 12 }]

/-- The parse of an unparsable body or of a JSON object lacking both
required fields: the empty ArduinoJson document. -/
def exDocMalformed : JsonDoc :=
  { idField := none, actionField := none, valueField := none }

/-- A well-formed action message whose target id matches no control of
`exState`. -/
def exDocUnknown : JsonDoc :=
  { idField := some "nope", actionField := some "toggle", valueField := none }

/-! ### Time-series store lemmas -/

/-- The suffix of the most recent `k` entries of a list. -/
def lastN (k : Nat) (l : List α) : List α := l.drop (l.length - k)

lemma lastN_length (k : Nat) (l : List α) :
    (lastN k l).length = min l.length k := by
  simp only [lastN, List.length_drop]
  omega

lemma lastN_append_absorb (k : Nat) (l ps : List α) :
    lastN k (lastN k l ++ ps) = lastN k (l ++ ps) := by
  have hm : l.length - k ≤ l.length := Nat.sub_le _ _
  simp only [lastN, List.length_append, List.length_drop]
  rw [← List.drop_append_of_le_length hm, List.drop_drop]
  congr 1
  omega

lemma appendSample_eq_lastN (mp : Int) (data : List ChartDataPoint)
    (p : ChartDataPoint) (h : data.length ≤ toUInt32 mp) :
    appendSample mp data p = lastN (toUInt32 mp) (data ++ [p]) := by
  unfold appendSample lastN
  by_cases hgt : (data ++ [p]).length > toUInt32 mp
  · rw [if_pos hgt]
    have h1 : (data ++ [p]).length - toUInt32 mp = 1 := by
      simp only [List.length_append, List.length_cons, List.length_nil] at hgt ⊢
      omega
    rw [h1]
  · rw [if_neg hgt]
    have h0 : (data ++ [p]).length - toUInt32 mp = 0 := by
      simp only [List.length_append, List.length_cons, List.length_nil] at hgt ⊢
      omega
    rw [h0, List.drop_zero]

lemma foldl_appendSample (mp : Int) (ps : List ChartDataPoint) :
    ∀ acc : List ChartDataPoint, acc.length ≤ toUInt32 mp →
      ps.foldl (appendSample mp) acc = lastN (toUInt32 mp) (acc ++ ps) := by
  induction ps with
  | nil =>
    intro acc h
    simp only [List.foldl_nil, List.append_nil, lastN]
    have h0 : acc.length - toUInt32 mp = 0 := by omega
    rw [h0, List.drop_zero]
  | cons p ps ih =>
    intro acc h
    simp only [List.foldl_cons]
    rw [appendSample_eq_lastN mp acc p h,
      ih _ (by rw [lastN_length]; omega),
      lastN_append_absorb, List.append_assoc]
    rfl

/-! ### Dispatch lemmas -/

lemma applyAction_toggle (v : Int) (c : DashboardControl)
    (ht : c.type = CONTROL_SWITCH ∨ c.type = CONTROL_POWER_BUTTON) :
    applyAction "toggle" v c
      = ({ c with state := !c.state },
         if c.hasSwitchCallback then [CallbackEv.onToggle c.id (!c.state)]
         else []) := by
  rcases ht with ht | ht <;> unfold applyAction <;> rw [ht] <;> rfl

lemma applyAction_click (v : Int) (c : DashboardControl)
    (ht : c.type = CONTROL_BUTTON) :
    applyAction "click" v c
      = (c, if c.hasButtonCallback then [CallbackEv.onClick c.id] else []) := by
  unfold applyAction; rw [ht]; rfl

lemma applyAction_slide (v : Int) (c : DashboardControl)
    (ht : c.type = CONTROL_SLIDER) :
    applyAction "slide" v c
      = ({ c with value := v },
         if c.hasSliderCallback then [CallbackEv.onSlide c.id v] else []) := by
  unfold applyAction; rw [ht]; rfl

lemma applyAction_mismatch (action : String) (v : Int) (c : DashboardControl)
    (h : (action = "toggle" ∧ (c.type = CONTROL_BUTTON ∨ c.type = CONTROL_SLIDER))
       ∨ (action = "click" ∧ c.type ≠ CONTROL_BUTTON)
       ∨ (action = "slide" ∧ c.type ≠ CONTROL_SLIDER)) :
    applyAction action v c = (c, []) := by
  rcases h with ⟨ha, ht | ht⟩ | ⟨ha, ht⟩ | ⟨ha, ht⟩ <;> subst ha <;> unfold applyAction
  · rw [ht]; rfl
  · rw [ht]; rfl
  · cases hct : c.type
    case CONTROL_BUTTON => exact absurd hct ht
    all_goals rfl
  · cases hct : c.type
    case CONTROL_SLIDER => exact absurd hct ht
    all_goals rfl

lemma dispatchControls_append (cid action : String) (v : Int)
    (pre rest : List DashboardControl)
    (hpre : ∀ p ∈ pre, p.id ≠ cid) :
    dispatchControls cid action v (pre ++ rest)
      = (pre ++ (dispatchControls cid action v rest).1,
         (dispatchControls cid action v rest).2) := by
  induction pre with
  | nil => simp
  | cons p pre ih =>
    have hp : ¬ ((p.id == cid) = true) := by
      simpa using hpre p (List.mem_cons_self p pre)
    simp only [List.cons_append, dispatchControls, if_neg hp, List.append_eq]
    rw [ih (fun q hq => hpre q (List.mem_cons_of_mem p hq))]

lemma setSwitchState_append (id : String) (st : Bool)
    (pre rest : List DashboardControl)
    (hpre : ∀ p ∈ pre,
      ¬ (p.id = id ∧ (p.type = CONTROL_SWITCH ∨ p.type = CONTROL_POWER_BUTTON))) :
    setSwitchState (pre ++ rest) id st
      = (pre ++ (setSwitchState rest id st).1, (setSwitchState rest id st).2) := by
  induction pre with
  | nil => simp
  | cons p pre ih =>
    have hp : ¬ ((p.id == id
        && (p.type == CONTROL_SWITCH || p.type == CONTROL_POWER_BUTTON)) = true) := by
      have h := hpre p (List.mem_cons_self p pre)
      simp only [Bool.and_eq_true, Bool.or_eq_true, beq_iff_eq]
      exact fun hc => h ⟨hc.1, hc.2⟩
    simp only [List.cons_append, setSwitchState, if_neg hp, List.append_eq]
    rw [ih (fun q hq => hpre q (List.mem_cons_of_mem p hq))]

lemma setSliderValue_append (id : String) (v : Int)
    (pre rest : List DashboardControl)
    (hpre : ∀ p ∈ pre, ¬ (p.id = id ∧ p.type = CONTROL_SLIDER)) :
    setSliderValue (pre ++ rest) id v
      = (pre ++ (setSliderValue rest id v).1, (setSliderValue rest id v).2) := by
  induction pre with
  | nil => simp
  | cons p pre ih =>
    have hp : ¬ ((p.id == id && (p.type == CONTROL_SLIDER)) = true) := by
      have h := hpre p (List.mem_cons_self p pre)
      simp only [Bool.and_eq_true, beq_iff_eq]
      exact fun hc => h ⟨hc.1, hc.2⟩
    simp only [List.cons_append, setSliderValue, if_neg hp, List.append_eq]
    rw [ih (fun q hq => hpre q (List.mem_cons_of_mem p hq))]

lemma broadcastCount_append (l1 l2 : List Output) :
    broadcastCount (l1 ++ l2) = broadcastCount l1 + broadcastCount l2 := by
  simp [broadcastCount, List.countP_append]

/-! ### Claims -/

/-- C1: For every chart card with capacity `maxPoints ≥ 0` (a
representable C++ `int`), iterating the append-and-evict step of
`addChartDataPoint` over any sequence of `N` samples, starting from the
empty store, leaves exactly `min N maxPoints` samples, namely the most
recent `min N maxPoints` samples in arrival order (the oldest is evicted
first, strict FIFO); in particular the length never exceeds `maxPoints`
after any append. -/
theorem chart_store_fifo (maxPoints : Int) (h0 : 0 ≤ maxPoints)
    (h1 : maxPoints < 2 ^ 31) (ps : List ChartDataPoint) :
    (ps.foldl (appendSample maxPoints) []).length
        = min ps.length maxPoints.toNat
    ∧ ps.foldl (appendSample maxPoints) []
        = ps.drop (ps.length - maxPoints.toNat) := by
  have hk : toUInt32 maxPoints = maxPoints.toNat := by
    unfold toUInt32
    omega
  have hmain := foldl_appendSample maxPoints ps [] (by simp)
  rw [List.nil_append, hk] at hmain
  constructor
  · rw [hmain]
    exact lastN_length maxPoints.toNat ps
  · rw [hmain]
    rfl

/-- Witness for C1 at capacity 2 and three appended samples: the store
retains the last two samples, in order. -/
theorem chart_store_fifo_witness :
    ((exPoints.foldl (appendSample 2) []).length
        = min exPoints.length ((2 : Int)).toNat
      ∧ exPoints.foldl (appendSample 2) []
        = exPoints.drop (exPoints.length - ((2 : Int)).toNat))
    ∧ exPoints.foldl (appendSample 2) []
        = [{ timestamp := 1, value := 11 }, { timestamp := 2, value := 12 }] :=
  ⟨chart_store_fifo 2 (by decide) (by decide) exPoints, by decide⟩

/-- C3: Dispatching an action whose verb does not match the target
control's kind (toggle on a Button/Slider, click on a non-Button, slide
on a non-Slider) leaves every control — state and value fields included —
unchanged and invokes no callback. -/
theorem mismatch_no_effect (action : String) (v : Int)
    (pre post : List DashboardControl) (c : DashboardControl)
    (hpre : ∀ p ∈ pre, p.id ≠ c.id)
    (h : (action = "toggle" ∧ (c.type = CONTROL_BUTTON ∨ c.type = CONTROL_SLIDER))
       ∨ (action = "click" ∧ c.type ≠ CONTROL_BUTTON)
       ∨ (action = "slide" ∧ c.type ≠ CONTROL_SLIDER)) :
    dispatchControls c.id action v (pre ++ c :: post) = (pre ++ c :: post, []) := by
  rw [dispatchControls_append _ _ _ _ _ hpre]
  simp only [dispatchControls, beq_self_eq_true, if_true,
    applyAction_mismatch action v c h]

/-- Witness for C3: a `toggle` aimed at a Button changes nothing and
fires no callback. -/
theorem mismatch_no_effect_witness :
    dispatchControls exButton.id "toggle" 0 ([] ++ exButton :: [])
      = ([] ++ exButton :: [], []) :=
  mismatch_no_effect "toggle" 0 [] [] exButton (by simp)
    (Or.inl ⟨rfl, Or.inl rfl⟩)

/-- C6: A `slide` dispatched at a Slider stores exactly the requested
value — the theorem holds for every `v`, with no hypothesis relating `v`
to `minValue`/`maxValue`, so out-of-range values are neither clamped nor
rejected — and invokes the slider callback with that value when bound. -/
theorem slider_no_clamp (v : Int) (pre post : List DashboardControl)
    (c : DashboardControl) (hpre : ∀ p ∈ pre, p.id ≠ c.id)
    (ht : c.type = CONTROL_SLIDER) :
    dispatchControls c.id "slide" v (pre ++ c :: post)
      = (pre ++ { c with value := v } :: post,
         if c.hasSliderCallback then [CallbackEv.onSlide c.id v] else []) := by
  rw [dispatchControls_append _ _ _ _ _ hpre]
  simp only [dispatchControls, beq_self_eq_true, if_true,
    applyAction_slide v c ht]

/-- Witness for C6 on the spec's example slider `{min:0, max:100,
value:50}`: sliding to 150 — outside the range — yields value 150. -/
theorem slider_no_clamp_witness :
    dispatchControls exSlider.id "slide" 150 ([] ++ exSlider :: [])
      = ([] ++ { exSlider with value := 150 } :: [],
         if exSlider.hasSliderCallback
         then [CallbackEv.onSlide exSlider.id 150] else [])
    ∧ ({ exSlider with value := 150 } : DashboardControl).value = 150
    ∧ ¬ ({ exSlider with value := 150 } : DashboardControl).value
        ≤ exSlider.maxValue :=
  ⟨slider_no_clamp 150 [] [] exSlider (by simp) rfl, by decide, by decide⟩

/-- C8: Dispatching `toggle` twice at a Switch with a bound `onToggle`
callback returns its state to the starting value `s` and leaves everything
else unchanged; across the two dispatches the callback fires exactly
twice, first with `!s` and then with `s`, each time receiving the state
after the flip. -/
theorem toggle_twice_involution (v : Int) (pre post : List DashboardControl)
    (c : DashboardControl) (hpre : ∀ p ∈ pre, p.id ≠ c.id)
    (ht : c.type = CONTROL_SWITCH) (hcb : c.hasSwitchCallback = true) :
    dispatchControls c.id "toggle" v (pre ++ c :: post)
      = (pre ++ { c with state := !c.state } :: post,
         [CallbackEv.onToggle c.id (!c.state)])
    ∧ dispatchControls c.id "toggle" v (pre ++ { c with state := !c.state } :: post)
      = (pre ++ c :: post, [CallbackEv.onToggle c.id c.state]) := by
  constructor
  · rw [dispatchControls_append _ _ _ _ _ hpre]
    simp only [dispatchControls, beq_self_eq_true, if_true,
      applyAction_toggle v c (Or.inl ht), hcb]
  · rw [dispatchControls_append _ _ _ _ _ hpre]
    have h2 := applyAction_toggle v { c with state := !c.state } (Or.inl ht)
    simp only [Bool.not_not] at h2
    simp only [dispatchControls, beq_self_eq_true, if_true]
    rw [h2]
    rw [if_pos hcb]

/-- Witness for C8 on a freshly registered Switch (`state = false`): two
toggles return it to `false`, with callback invocations at `true` then
`false`. -/
theorem toggle_twice_involution_witness :
    dispatchControls exSwitch.id "toggle" 0 ([] ++ exSwitch :: [])
      = ([] ++ { exSwitch with state := !exSwitch.state } :: [],
         [CallbackEv.onToggle exSwitch.id (!exSwitch.state)])
    ∧ dispatchControls exSwitch.id "toggle" 0
        ([] ++ { exSwitch with state := !exSwitch.state } :: [])
      = ([] ++ exSwitch :: [], [CallbackEv.onToggle exSwitch.id exSwitch.state]) :=
  toggle_twice_involution 0 [] [] exSwitch (by simp) rfl rfl

/-- C2 counterexample: a well-formed push-channel action whose targetId
matches no control of the registry mutates nothing and invokes no
callback, yet still triggers one broadcast — the code calls
`sendDataToClients` after the dispatch loop whether or not anything
matched, so "no broadcast on unknown targetId" is false. -/
theorem broadcast_unknown_id_counterexample :
    (webSocketTextEvent exState "msg" exDocUnknown 0 5 1).1.controls
        = exState.controls
    ∧ (webSocketTextEvent exState "msg" exDocUnknown 0 5 1).2.1 = []
    ∧ broadcastCount (webSocketTextEvent exState "msg" exDocUnknown 0 5 1).2.2
        = 1 :=
  ⟨rfl, rfl, rfl⟩

/-- C2 (amended): a broadcast is triggered exactly when the inbound
message is well-formed — on the push channel, when the parsed document
has both `id` and `action`; on the request/response channel, when a body
is present — regardless of whether the dispatch mutated (or clicked) any
control. -/
theorem broadcast_on_wellformed :
    (∀ (s : DashState) (payload : String) (doc : JsonDoc)
        (num now clients : Nat),
      broadcastCount (webSocketTextEvent s payload doc num now clients).2.2
        = if doc.idField.isSome && doc.actionField.isSome then 1 else 0)
    ∧ (∀ (s : DashState) (body : Option JsonDoc) (now clients : Nat),
      broadcastCount (handleApiControl s body now clients).2.2
        = if body.isSome then 1 else 0) := by
  constructor
  · intro s payload doc num now clients
    rcases doc with ⟨i, a, vf⟩
    cases i <;> cases a <;>
      simp only [webSocketTextEvent, broadcastCount_append] <;>
      cases hom : s.onCustomMessageSet <;> rfl
  · intro s body now clients
    cases body <;> rfl

/-- C4 counterexample: a `POST /api/control` whose body is present but
unparsable (equivalently, parses to a document missing both `id` and
`action`) is answered with HTTP 200 `{"status":"success"}`, not with the
HTTP 400 the claim requires for malformed payloads. -/
theorem malformed_http_counterexample :
    ((handleApiControl exState (some exDocMalformed) 0 0).2.2.head?.bind
        httpCode) = some 200
    ∧ (200 : Nat) ≠ 400 :=
  ⟨rfl, by decide⟩

/-- C4 (amended): the HTTP 400 error object is returned exactly when the
request carries no body; any request with a body — including unparsable
JSON or JSON missing `id`/`action` — receives HTTP 200
`{"status":"success"}`, and the dispatch outcome (no-op vs applied) is
not distinguished in the response. -/
theorem http_status_by_body :
    (∀ (s : DashState) (doc : JsonDoc) (now clients : Nat),
      (handleApiControl s (some doc) now clients).2.2.head?
        = some (Output.httpReply 200 "\x7b\"status\":\"success\"\x7d"))
    ∧ (∀ (s : DashState) (now clients : Nat),
      (handleApiControl s none now clients).2.2
        = [Output.httpReply 400 "\x7b\"error\":\"No data received\"\x7d"]) :=
  ⟨fun s doc now clients => rfl, fun s now clients => rfl⟩

/-- C5 counterexample: the `CardType` enum declares `CARD_CUSTOM` before
`CARD_STATUS`, so Status serializes to 4 and Custom to 3 — the code for
Status does not precede the code for Custom, refuting the claimed
ordering {Temperature, Humidity, MotorRPM, Status, Percentage, Custom,
Chart}. -/
theorem type_code_order_counterexample :
    cardTypeCode CARD_STATUS = 4 ∧ cardTypeCode CARD_CUSTOM = 3
    ∧ ¬ cardTypeCode CARD_STATUS < cardTypeCode CARD_CUSTOM := by
  decide

/-- C5 (amended): the numeric type code serialized for each card in
every snapshot is the stable small integer given by the closed variant
ordering {Temperature, Humidity, MotorRPM, Custom, Status, Percentage,
Chart}, with Chart = 6; the code for Custom precedes the code for
Status. -/
theorem type_codes_stable :
    cardTypeCode CARD_TEMPERATURE = 0 ∧ cardTypeCode CARD_HUMIDITY = 1
    ∧ cardTypeCode CARD_MOTOR_RPM = 2 ∧ cardTypeCode CARD_CUSTOM = 3
    ∧ cardTypeCode CARD_STATUS = 4 ∧ cardTypeCode CARD_PERCENTAGE = 5
    ∧ cardTypeCode CARD_CHART = 6
    ∧ cardTypeCode CARD_CUSTOM < cardTypeCode CARD_STATUS
    ∧ (∀ (s : DashState) (now clients : Nat),
        (fullSnapshot s now clients).cards.map FullCardSnap.typeCode
          = s.cards.map (fun c => cardTypeCode c.type)
        ∧ (compactSnapshot s now clients).cards.map CompactCardSnap.typeCode
          = s.cards.map (fun c => cardTypeCode c.type)) := by
  refine ⟨rfl, rfl, rfl, rfl, rfl, rfl, rfl, by decide,
    fun s now clients => ⟨?_, ?_⟩⟩
  · rw [show (fullSnapshot s now clients).cards
        = s.cards.map (fun c =>
            ({ id := c.id, title := c.title, description := c.description
               value := cardValueNow c, status := cardStatusNow c
               color := c.color, icon := c.icon
               typeCode := cardTypeCode c.type
               chartData := if c.type == CARD_CHART then some c.chartData
                 else none } : FullCardSnap)) from rfl, List.map_map]
    rfl
  · rw [show (compactSnapshot s now clients).cards
        = s.cards.map cardSnapOf from rfl, List.map_map]
    rfl

/-- C7: a push-channel text message whose parse lacks `id` or `action`
(which includes every unparsable message, since a failed parse leaves the
document empty) is dropped: the registry state — every card and every
control — is unchanged, no control callback is invoked, and no broadcast
is triggered; the code sends nothing back on the push channel for such a
message. -/
theorem malformed_ws_dropped (s : DashState) (payload : String)
    (doc : JsonDoc) (num now clients : Nat)
    (h : doc.idField = none ∨ doc.actionField = none) :
    (webSocketTextEvent s payload doc num now clients).1 = s
    ∧ (webSocketTextEvent s payload doc num now clients).2.1 = []
    ∧ broadcastCount (webSocketTextEvent s payload doc num now clients).2.2
        = 0 := by
  have hc : ¬ ((doc.idField.isSome && doc.actionField.isSome) = true) := by
    rcases h with h | h <;> simp [h]
  refine ⟨?_, ?_, ?_⟩
  · simp only [webSocketTextEvent, if_neg hc]
  · simp only [webSocketTextEvent, if_neg hc]
  · simp only [webSocketTextEvent, if_neg hc]
    cases hom : s.onCustomMessageSet <;> rfl

/-- Witness for C7: a registry with one Switch receiving an unparsable
message (the empty document) is left untouched, with no events and no
broadcast. -/
theorem malformed_ws_dropped_witness :
    (webSocketTextEvent exState "not json" exDocMalformed 0 5 1).1 = exState
    ∧ (webSocketTextEvent exState "not json" exDocMalformed 0 5 1).2.1 = []
    ∧ broadcastCount
        (webSocketTextEvent exState "not json" exDocMalformed 0 5 1).2.2
        = 0 :=
  malformed_ws_dropped exState "not json" exDocMalformed 0 5 1 (Or.inl rfl)

/-- C9: serving `GET /api/data` builds the full snapshot without mutating
any registry state: the state after the query is the state before it,
every stored field included. -/
theorem api_data_no_mutation (s : DashState) (now clients : Nat) :
    (handleApiData s now clients).1 = s := rfl

/-- C10: `setSwitchState` (resp. `setSliderValue`), when the id matches a
control of the right kind, stores the given state (resp. value), invokes
the bound callback with that new value, and produces no broadcast; the
change reaches viewers through the next periodic tick, whose broadcast
snapshot lists the control with its updated state (resp. value). -/
theorem setters_no_broadcast :
    (∀ (s : DashState) (pre post : List DashboardControl)
        (c : DashboardControl) (st : Bool) (now clients : Nat),
      s.controls = pre ++ c :: post →
      (∀ p ∈ pre, ¬ (p.id = c.id
        ∧ (p.type = CONTROL_SWITCH ∨ p.type = CONTROL_POWER_BUTTON))) →
      (c.type = CONTROL_SWITCH ∨ c.type = CONTROL_POWER_BUTTON) →
      c.hasSwitchCallback = true →
      (setSwitchStateS s c.id st).1.controls
          = pre ++ { c with state := st } :: post
      ∧ (setSwitchStateS s c.id st).2.1 = [CallbackEv.onToggle c.id st]
      ∧ broadcastCount (setSwitchStateS s c.id st).2.2 = 0
      ∧ (usub32 now s.lastUpdate ≥ s.updateInterval →
         (loopTick (setSwitchStateS s c.id st).1 now clients).2
           = [Output.broadcast
               { cards := (tickCharts s.cards now).map cardSnapOf
                 controls := pre.map controlSnapOf
                   ++ { id := c.id, state := st, value := c.value }
                     :: post.map controlSnapOf
                 timestamp := now, connectedClients := clients }]))
    ∧ (∀ (s : DashState) (pre post : List DashboardControl)
        (c : DashboardControl) (v : Int) (now clients : Nat),
      s.controls = pre ++ c :: post →
      (∀ p ∈ pre, ¬ (p.id = c.id ∧ p.type = CONTROL_SLIDER)) →
      c.type = CONTROL_SLIDER →
      c.hasSliderCallback = true →
      (setSliderValueS s c.id v).1.controls
          = pre ++ { c with value := v } :: post
      ∧ (setSliderValueS s c.id v).2.1 = [CallbackEv.onSlide c.id v]
      ∧ broadcastCount (setSliderValueS s c.id v).2.2 = 0
      ∧ (usub32 now s.lastUpdate ≥ s.updateInterval →
         (loopTick (setSliderValueS s c.id v).1 now clients).2
           = [Output.broadcast
               { cards := (tickCharts s.cards now).map cardSnapOf
                 controls := pre.map controlSnapOf
                   ++ { id := c.id, state := c.state, value := v }
                     :: post.map controlSnapOf
                 timestamp := now, connectedClients := clients }])) := by
  constructor
  · intro s pre post c st now clients hs hpre ht hcb
    have hcond : (c.id == c.id
        && (c.type == CONTROL_SWITCH || c.type == CONTROL_POWER_BUTTON))
          = true := by
      rcases ht with ht | ht <;> simp [ht]
    have hhead : setSwitchState (c :: post) c.id st
        = ({ c with state := st } :: post, [CallbackEv.onToggle c.id st]) := by
      simp only [setSwitchState, if_pos hcond, hcb, if_true]
    have hlist : setSwitchState s.controls c.id st
        = (pre ++ { c with state := st } :: post,
           [CallbackEv.onToggle c.id st]) := by
      rw [hs, setSwitchState_append _ _ _ _ hpre, hhead]
    refine ⟨?_, ?_, rfl, ?_⟩
    · show (setSwitchState s.controls c.id st).1 = _
      rw [hlist]
    · show (setSwitchState s.controls c.id st).2 = _
      rw [hlist]
    · intro hint
      show (loopTick { s with controls := (setSwitchState s.controls c.id st).1 }
          now clients).2 = _
      unfold loopTick
      rw [if_pos hint, hlist]
      simp [compactSnapshot, controlSnapOf]
  · intro s pre post c v now clients hs hpre ht hcb
    have hcond : (c.id == c.id && (c.type == CONTROL_SLIDER)) = true := by
      simp [ht]
    have hhead : setSliderValue (c :: post) c.id v
        = ({ c with value := v } :: post, [CallbackEv.onSlide c.id v]) := by
      simp only [setSliderValue, if_pos hcond, hcb, if_true]
    have hlist : setSliderValue s.controls c.id v
        = (pre ++ { c with value := v } :: post,
           [CallbackEv.onSlide c.id v]) := by
      rw [hs, setSliderValue_append _ _ _ _ hpre, hhead]
    refine ⟨?_, ?_, rfl, ?_⟩
    · show (setSliderValue s.controls c.id v).1 = _
      rw [hlist]
    · show (setSliderValue s.controls c.id v).2 = _
      rw [hlist]
    · intro hint
      show (loopTick { s with controls := (setSliderValue s.controls c.id v).1 }
          now clients).2 = _
      unfold loopTick
      rw [if_pos hint, hlist]
      simp [compactSnapshot, controlSnapOf]

/-- Witness for C10: setting the Switch to `true` (and the example
Slider to 70) updates the control, fires its callback once, emits no
broadcast, and the next elapsed tick (at 1000 ms, interval 1000 ms)
broadcasts a snapshot showing the updated control. -/
theorem setters_no_broadcast_witness :
    ((setSwitchStateS exState exSwitch.id true).1.controls
        = [] ++ { exSwitch with state := true } :: []
      ∧ (setSwitchStateS exState exSwitch.id true).2.1
        = [CallbackEv.onToggle exSwitch.id true]
      ∧ broadcastCount (setSwitchStateS exState exSwitch.id true).2.2 = 0
      ∧ (loopTick (setSwitchStateS exState exSwitch.id true).1 1000 2).2
          = [Output.broadcast
              { cards := (tickCharts exState.cards 1000).map cardSnapOf
                controls := ([] : List DashboardControl).map controlSnapOf
                  ++ { id := exSwitch.id, state := true, value := exSwitch.value }
                    :: ([] : List DashboardControl).map controlSnapOf
                timestamp := 1000, connectedClients := 2 }])
    ∧ ((setSliderValueS exStateSlider exSlider.id 70).1.controls
        = [] ++ { exSlider with value := 70 } :: []
      ∧ (setSliderValueS exStateSlider exSlider.id 70).2.1
        = [CallbackEv.onSlide exSlider.id 70]
      ∧ broadcastCount (setSliderValueS exStateSlider exSlider.id 70).2.2 = 0
      ∧ (loopTick (setSliderValueS exStateSlider exSlider.id 70).1 1000 2).2
          = [Output.broadcast
              { cards := (tickCharts exStateSlider.cards 1000).map cardSnapOf
                controls := ([] : List DashboardControl).map controlSnapOf
                  ++ { id := exSlider.id, state := exSlider.state, value := 70 }
                    :: ([] : List DashboardControl).map controlSnapOf
                timestamp := 1000, connectedClients := 2 }]) := by
  have h1 := setters_no_broadcast.1 exState [] [] exSwitch true 1000 2 rfl
    (by simp) (Or.inl rfl) rfl
  have h2 := setters_no_broadcast.2 exStateSlider [] [] exSlider 70 1000 2 rfl
    (by simp) rfl rfl
  exact ⟨⟨h1.1, h1.2.1, h1.2.2.1, h1.2.2.2 (by decide)⟩,
         ⟨h2.1, h2.2.1, h2.2.2.1, h2.2.2.2 (by decide)⟩⟩

end ESP32Dashboard
